import Mathlib

/-!
# influxdbclient: tagging, routing and connection lifecycle

A shallow embedding of `influxdbclient.go`.  The client struct is an explicit
state value; every call into a collaborator (the InfluxDB client library, the
zap logger, standard output) is recorded as an `Event` in the order in which the
Go code performs it.  Answers of the store (ping, query) are arguments of the
operation that asks for them.  A Go runtime panic (a method call on a nil
interface value) is an explicit outcome.
-/

namespace Influxdbclient

/-! ## Go values -/

/-- A Go `map[string]V`, kept as an association list with unique keys. -/
abbrev GoMap (V : Type) := List (String × V)

/-- The map assignment `m[k] = v`: overwrite the entry of `k`, or add one. -/
def GoMap.set {V : Type} : GoMap V → String → V → GoMap V
  | [], k, v => [(k, v)]
  | (k', v') :: rest, k, v =>
    if k' = k then (k, v) :: rest else (k', v') :: GoMap.set rest k v

/-- The map read `m[k]` with its presence flag. -/
def GoMap.get? {V : Type} : GoMap V → String → Option V
  | [], _ => none
  | (k', v') :: rest, k => if k' = k then some v' else GoMap.get? rest k

/-- The keys present in the map. -/
def GoMap.keys {V : Type} (m : GoMap V) : List String := m.map Prod.fst

/-- A `uuid.UUID`: an array of sixteen bytes. -/
abbrev UUID := { l : List (Fin 256) // l.length = 16 }

/-- The all-zero identifier `uuid.Nil`. -/
def UUID.Nil : UUID := ⟨List.replicate 16 0, by decide⟩

/-- One lowercase hexadecimal digit, as `encoding/hex` writes it. -/
def hexDigit (n : Nat) : Char := "0123456789abcdef".toList.getD n '0'

/-- The Go function `hex.Encode`: two digits per byte, high nibble first. -/
def hexEncode : List (Fin 256) → List Char
  | [] => []
  | b :: rest => hexDigit (b.val / 16) :: hexDigit (b.val % 16) :: hexEncode rest

/-- The method `UUID.String` of github.com/google/uuid (`encodeHex`): the
8-4-4-4-12 grouping of the thirty-two hexadecimal digits. -/
def UUID.String (u : UUID) : String :=
  String.mk
    (hexEncode (u.val.take 4) ++ '-' :: hexEncode ((u.val.drop 4).take 2)
      ++ '-' :: hexEncode ((u.val.drop 6).take 2)
      ++ '-' :: hexEncode ((u.val.drop 8).take 2)
      ++ '-' :: hexEncode (u.val.drop 10))

/-- A value stored under `any` in the `Data` map of a message. -/
inductive Value where
  | int (i : Int)
  | float (mantissa : Int) (exponent : Int)
  | str (s : String)
  | bool (b : Bool)
  deriving DecidableEq, Repr

/-- A `time.Time`, as nanoseconds since the Unix epoch. -/
abbrev Time := Int

/-! ## Types of the package -/

/-- The struct `InfluxDBConfig`. -/
structure InfluxDBConfig where
  URL : String
  Token : String
  Org : String
  Bucket : String
  deriving DecidableEq, Repr

/-- The struct `Message`. -/
structure Message where
  State : String
  CustomerID : UUID
  CustomerName : String
  SiteID : UUID
  SiteName : String
  Gateway : String
  Controller : String
  DeviceType : String
  ControllerIdentifier : String
  DeviceName : String
  DeviceIdentifier : String
  Data : GoMap Value
  Timestamp : Time
  deriving DecidableEq, Repr

/-! ## Tag helpers -/

def getCustomerIDTag (customerID : UUID) : String :=
  if customerID = UUID.Nil then "Unknown customer ID" else customerID.String

def getCustomerTag (customer : String) : String :=
  if customer = "" then "Unknown customer" else customer

def getSiteIDTag (siteID : UUID) : String :=
  if siteID = UUID.Nil then "Unknown site ID" else siteID.String

def getSiteNameTag (siteName : String) : String :=
  if siteName = "" then "Unknown site" else siteName

def getGatewayTag (gateway : String) : String :=
  if gateway = "" then "Unknown gateway" else gateway

def getControllerTag (controller : String) : String :=
  if controller = "" then "Unknown controller" else controller

def getDeviceTypeTag (deviceType : String) : String :=
  if deviceType = "" then "Unknown device type" else deviceType

def getControllerIdentifierTag (controllerIdentifier : String) : String :=
  if controllerIdentifier = "" then "Unknown controller serial number" else controllerIdentifier

def getDeviceNameTag (deviceName : String) : String :=
  if deviceName = "" then "Unknown device name" else deviceName

def getDeviceIdentifierTag (deviceIdentifier : String) : String :=
  if deviceIdentifier = "" then "Unknown device serial number" else deviceIdentifier

/-- The first ten statements of `WriteData`: the tag map built from a message. -/
def buildTags (data : Message) : GoMap String :=
  let tags : GoMap String := []
  let tags := tags.set "customerID" (getCustomerIDTag data.CustomerID)
  let tags := tags.set "customer" (getCustomerTag data.CustomerName)
  let tags := tags.set "siteID" (getSiteIDTag data.SiteID)
  let tags := tags.set "site" (getSiteNameTag data.SiteName)
  let tags := tags.set "gateway" (getGatewayTag data.Gateway)
  let tags := tags.set "controller" (getControllerTag data.Controller)
  let tags := tags.set "device_type" (getDeviceTypeTag data.DeviceType)
  let tags := tags.set "controller_identifier" (getControllerIdentifierTag data.ControllerIdentifier)
  let tags := tags.set "device_name" (getDeviceNameTag data.DeviceName)
  let tags := tags.set "device_identifier" (getDeviceIdentifierTag data.DeviceIdentifier)
  tags

/-! ## Collaborators: the store client library, the logger, standard output -/

/-- An error value returned by the InfluxDB client library, by its message. -/
abbrev StoreError := String

/-- An error made by `fmt.Errorf`: the format string and its arguments (a `%w`
argument may be a nil error). -/
structure Error where
  format : String
  args : List (Option StoreError)
  deriving DecidableEq, Repr

/-- The object `influxdb2.NewClient(url, token)` returns; `id` tells two such
objects apart. -/
structure StoreClient where
  id : Nat
  url : String
  token : String
  deriving DecidableEq, Repr

/-- The handle `client.QueryAPI(org)`. -/
structure QueryAPI where
  client : StoreClient
  org : String
  deriving DecidableEq, Repr

/-- The handle `client.WriteAPI(org, bucket)`. -/
structure WriteAPI where
  client : StoreClient
  org : String
  bucket : String
  deriving DecidableEq, Repr

/-- The value `influxdb2.NewPoint(measurement, tags, fields, ts)`. -/
structure Point where
  measurement : String
  tags : GoMap String
  fields : GoMap Value
  ts : Time
  deriving DecidableEq, Repr

def NewPoint (measurement : String) (tags : GoMap String) (fields : GoMap Value) (ts : Time) :
    Point :=
  { measurement := measurement, tags := tags, fields := fields, ts := ts }

/-- The zap levels the package logs at. -/
inductive Level where
  | debug
  | info
  | warn
  deriving DecidableEq, Repr

/-- A structured field of a log entry: `zap.String` or `zap.Any` of a data map. -/
inductive LogField where
  | string (key : String) (val : String)
  | any (key : String) (val : GoMap Value)
  deriving DecidableEq, Repr

/-- One call into a collaborator. -/
inductive Event where
  | log (level : Level) (msg : String) (fields : List LogField)
  | newClient (sc : StoreClient)
  | ping (sc : StoreClient)
  | query (q : QueryAPI) (text : String)
  | printResult (q : QueryAPI) (text : String)
  | closeResult (q : QueryAPI) (text : String)
  | writePoint (w : WriteAPI) (p : Point)
  | flush (w : WriteAPI)
  | close (sc : StoreClient)
  deriving DecidableEq, Repr

/-- How a call ends: it returns a value, or the Go runtime panics. -/
inductive Outcome (α : Type) where
  | returned (a : α)
  | panicked
  deriving DecidableEq, Repr

/-- The struct `InfluxDBClient`.  Each of the three interface fields is nil
(`none`) or holds a value.  The `Logger` field is a pointer to a logger that
accepts every entry; calls on it are recorded as `Event.log`. -/
structure InfluxDBClient where
  Config : InfluxDBConfig
  client : Option StoreClient
  queryAPI : Option QueryAPI
  writeAPI : Option WriteAPI
  deriving DecidableEq, Repr

/-- What a method call leaves behind: the client struct after the call, the
collaborator calls it made in order, and how it ended. -/
structure Step (α : Type) where
  client : InfluxDBClient
  events : List Event
  outcome : Outcome α

/-- The points handed to `WritePoint`, in order. -/
def pointsOf : List Event → List Point
  | [] => []
  | Event.writePoint _ p :: rest => p :: pointsOf rest
  | _ :: rest => pointsOf rest

/-- The store clients created by `influxdb2.NewClient`, in order. -/
def newClientsOf : List Event → List StoreClient
  | [] => []
  | Event.newClient sc :: rest => sc :: newClientsOf rest
  | _ :: rest => newClientsOf rest

/-- The store clients closed, in order. -/
def closedOf : List Event → List StoreClient
  | [] => []
  | Event.close sc :: rest => sc :: closedOf rest
  | _ :: rest => closedOf rest

/-- The query texts executed against the store, in order. -/
def queriesOf : List Event → List String
  | [] => []
  | Event.query _ text :: rest => text :: queriesOf rest
  | _ :: rest => queriesOf rest

/-- The warnings logged, in order. -/
def warningsOf : List Event → List String
  | [] => []
  | Event.log Level.warn msg _ :: rest => msg :: warningsOf rest
  | _ :: rest => warningsOf rest

/-! ## The package functions -/

def NewInfluxDBClient (url token org bucket : String) : InfluxDBClient :=
  let config : InfluxDBConfig := { URL := url, Token := token, Org := org, Bucket := bucket }
  { Config := config, client := none, queryAPI := none, writeAPI := none }

def InfluxDBClient.Connected (c : InfluxDBClient) : Bool :=
  c.client.isSome

/-- What the store answers during one `Connect`: the identity of the client
object `NewClient` makes, the two results of `Ping`, and the error of the
`buckets()` query. -/
structure ConnectAnswers where
  fresh : Nat
  pingOk : Bool
  pingErr : Option StoreError
  queryErr : Option StoreError
  deriving DecidableEq, Repr

def InfluxDBClient.Connect (c : InfluxDBClient) (a : ConnectAnswers) : Step (Option Error) :=
  let ev : List Event := [Event.log Level.info "Connecting to InfluxDB"
    [LogField.string "url" c.Config.URL, LogField.string "org" c.Config.Org,
     LogField.string "bucket" c.Config.Bucket]]
  if c.client.isSome then
    { client := c
      events := ev ++ [Event.log Level.warn "InfluxDB client already connected" []]
      outcome := Outcome.returned none }
  else
    let sc : StoreClient := { id := a.fresh, url := c.Config.URL, token := c.Config.Token }
    let q : QueryAPI := { client := sc, org := c.Config.Org }
    let w : WriteAPI := { client := sc, org := c.Config.Org, bucket := c.Config.Bucket }
    let c := { c with client := some sc }
    let c := { c with queryAPI := some q }
    let c := { c with writeAPI := some w }
    let ev := ev ++ [Event.newClient sc, Event.ping sc]
    if !a.pingOk || a.pingErr.isSome then
      { client := { c with client := none }
        events := ev
        outcome := Outcome.returned
          (some { format := "failed to ping InfluxDB server: %w", args := [a.pingErr] }) }
    else
      let ev := ev ++ [Event.log Level.debug "Successfully pinged InfluxDB server" [],
        Event.query q "buckets()"]
      match a.queryErr with
      | some err =>
        { client := { c with client := none }
          events := ev
          outcome := Outcome.returned
            (some { format := "failed to query InfluxDB server: %w", args := [some err] }) }
      | none =>
        { client := c
          events := ev ++ [Event.log Level.info "Connected to InfluxDB" []]
          outcome := Outcome.returned none }

def InfluxDBClient.Disconnect (c : InfluxDBClient) : Step Unit :=
  match c.client with
  | none =>
    { client := c
      events := [Event.log Level.warn "No connection to InfluxDB" []]
      outcome := Outcome.returned () }
  | some sc =>
    let c := { c with client := none }
    let c := { c with queryAPI := none }
    let c := { c with writeAPI := none }
    { client := c
      events := [Event.close sc, Event.log Level.info "Disconnected from InfluxDB" []]
      outcome := Outcome.returned () }

/-- The line both log helpers build with `fmt.Sprintf`. -/
def loggerLine (message : Message) : String :=
  message.Gateway ++ " :: " ++ message.CustomerName ++ " :: " ++ message.SiteName ++ " :: "
    ++ message.Controller ++ " :: " ++ message.ControllerIdentifier ++ " :: "
    ++ message.DeviceType ++ " :: " ++ message.DeviceIdentifier ++ " :: " ++ message.DeviceName

def logWriterInfo (message : Message) : List Event :=
  [Event.log Level.info (loggerLine message) []]

def logWriterDebug (message : Message) : List Event :=
  let loggerMsg := loggerLine message
  let loggerMsg := if message.State ≠ "" then loggerMsg ++ " :: " ++ message.State else loggerMsg
  [Event.log Level.debug loggerMsg [LogField.any "data" message.Data]]

def InfluxDBClient.WriteData (c : InfluxDBClient) (data : Message) : Step (Option Error) :=
  let tags := buildTags data
  match c.writeAPI with
  | none =>
    -- the first statement of every branch calls `WritePoint` on a nil interface
    { client := c, events := [], outcome := Outcome.panicked }
  | some w =>
    let ev : List Event :=
      if data.State = "Pre" then
        [Event.writePoint w (NewPoint "Original_MQTT" tags data.Data data.Timestamp)]
          ++ logWriterDebug data
      else if data.State = "Post" then
        [Event.writePoint w (NewPoint "Processed_MQTT" tags data.Data data.Timestamp)]
          ++ logWriterInfo data ++ logWriterDebug data
      else
        [Event.writePoint w (NewPoint "Original_MQTT" tags data.Data data.Timestamp),
         Event.writePoint w (NewPoint "Processed_MQTT" tags data.Data data.Timestamp)]
          ++ logWriterInfo data ++ logWriterDebug data
    { client := c, events := ev ++ [Event.flush w], outcome := Outcome.returned none }

/-- The method `ReadData`; `queryErr` is the error the store answers the query
with.  The returned slice is the nil slice on every path. -/
def InfluxDBClient.ReadData (c : InfluxDBClient) (query : String) (queryErr : Option StoreError) :
    Step (List Message × Option Error) :=
  match c.queryAPI with
  | none =>
    { client := c
      events := []
      outcome := Outcome.returned ([], some { format := "queryAPI is not initialized", args := [] }) }
  | some q =>
    match queryErr with
    | some err =>
      { client := c
        events := [Event.query q query]
        outcome := Outcome.returned
          ([], some { format := "failed to execute query: %w", args := [some err] }) }
    | none =>
      { client := c
        events := [Event.query q query, Event.printResult q query, Event.closeResult q query]
        outcome := Outcome.returned ([], none) }

/-! ## Call sequences -/

/-- One call on a client, with the answers of the store it meets. -/
inductive Op where
  | Connect (a : ConnectAnswers)
  | Disconnect
  | WriteData (data : Message)
  | ReadData (query : String) (queryErr : Option StoreError)
  deriving DecidableEq, Repr

/-- The client struct after one call (a panic leaves the struct as it was). -/
def Op.next (c : InfluxDBClient) : Op → InfluxDBClient
  | Op.Connect a => (c.Connect a).client
  | Op.Disconnect => c.Disconnect.client
  | Op.WriteData data => (c.WriteData data).client
  | Op.ReadData query queryErr => (c.ReadData query queryErr).client

/-- The collaborator calls one call makes. -/
def Op.events (c : InfluxDBClient) : Op → List Event
  | Op.Connect a => (c.Connect a).events
  | Op.Disconnect => c.Disconnect.events
  | Op.WriteData data => (c.WriteData data).events
  | Op.ReadData query queryErr => (c.ReadData query queryErr).events

/-- Whether the call is a `Connect` that returns no error on this client. -/
def Op.connects (c : InfluxDBClient) : Op → Bool
  | Op.Connect a => decide ((c.Connect a).outcome = Outcome.returned none)
  | _ => false

/-- The client struct after a sequence of calls. -/
def run : InfluxDBClient → List Op → InfluxDBClient
  | c, [] => c
  | c, op :: rest => run (Op.next c op) rest

/-- Whether no call of the sequence, started on `c`, is a successful `Connect`. -/
def noSuccessfulConnect : InfluxDBClient → List Op → Bool
  | _, [] => true
  | c, op :: rest => !Op.connects c op && noSuccessfulConnect (Op.next c op) rest

/-! ## Sample values -/

def sampleID : UUID :=
  ⟨[0x12, 0x3e, 0x45, 0x67, 0xe8, 0x9b, 0x12, 0xd3, 0xa4, 0x56, 0x42, 0x66, 0x14, 0x17, 0x40, 0x00],
    by decide⟩

def sampleMessage : Message :=
  { State := "Post", CustomerID := sampleID, CustomerName := "Acme", SiteID := UUID.Nil,
    SiteName := "", Gateway := "gw1", Controller := "", DeviceType := "",
    ControllerIdentifier := "", DeviceName := "", DeviceIdentifier := "",
    Data := [("temp", Value.float 215 (-1))], Timestamp := 1700000000000000000 }

def goodAnswers : ConnectAnswers :=
  { fresh := 0, pingOk := true, pingErr := none, queryErr := none }

def badPing : ConnectAnswers :=
  { fresh := 0, pingOk := false, pingErr := some "connection refused", queryErr := none }

def badQuery : ConnectAnswers :=
  { fresh := 0, pingOk := true, pingErr := none, queryErr := some "unauthorized" }

def freshClient : InfluxDBClient := NewInfluxDBClient "http://localhost:8086" "token" "org" "bucket"

def connectedClient : InfluxDBClient := run freshClient [Op.Connect goodAnswers]

def samplePre : Message := { sampleMessage with State := "Pre" }

def sampleUnspecified : Message := { sampleMessage with State := "" }

def samplePoint : Point :=
  { measurement := "Processed_MQTT", tags := buildTags sampleMessage,
    fields := sampleMessage.Data, ts := sampleMessage.Timestamp }

/-! ## Predicates used in the statements -/

/-- The ten tag keys. -/
def tagKeys : List String :=
  ["customerID", "customer", "siteID", "site", "gateway", "controller", "device_type",
   "controller_identifier", "device_name", "device_identifier"]

/-- The defaulting rule of one text field: the tag under `key` is the field
when the field is non-empty and `placeholder` when it is empty. -/
def TagRule (tags : GoMap String) (key field placeholder : String) : Prop :=
  (field ≠ "" → tags.get? key = some field) ∧ (field = "" → tags.get? key = some placeholder)

/-- A client struct some sequence of calls produces from the constructor. -/
def Reachable (c : InfluxDBClient) : Prop :=
  ∃ url token org bucket ops, c = run (NewInfluxDBClient url token org bucket) ops

/-- Both handles are set whenever the connection is. -/
def HandlesReady (c : InfluxDBClient) : Prop :=
  c.client.isSome = true → c.queryAPI.isSome = true ∧ c.writeAPI.isSome = true

/-! ## Lemmas -/

theorem hexEncode_length (l : List (Fin 256)) : (hexEncode l).length = 2 * l.length := by
  induction l with
  | nil => rfl
  | cons b rest ih => simp [hexEncode, ih]; omega

theorem UUID.String_length (u : UUID) : u.String.length = 36 := by
  obtain ⟨l, hl⟩ := u
  simp [UUID.String, String.length, hexEncode_length, hl]

theorem UUID.String_ne_empty (u : UUID) : u.String ≠ "" := by
  intro h
  have := UUID.String_length u
  rw [h] at this
  exact absurd this (by decide)

theorem UUID.String_ne_customer (u : UUID) : u.String ≠ "Unknown customer ID" := by
  intro h
  have := UUID.String_length u
  rw [h] at this
  exact absurd this (by decide)

theorem UUID.String_ne_site (u : UUID) : u.String ≠ "Unknown site ID" := by
  intro h
  have := UUID.String_length u
  rw [h] at this
  exact absurd this (by decide)

theorem GoMap.mem_of_get? {V : Type} (m : GoMap V) (k : String) (v : V)
    (h : m.get? k = some v) : (k, v) ∈ m := by
  induction m with
  | nil => simp [GoMap.get?] at h
  | cons kv rest ih =>
    obtain ⟨k', v'⟩ := kv
    simp only [GoMap.get?] at h
    split at h
    · rename_i hk
      injection h with h
      subst hk; subst h
      exact List.mem_cons_self _ _
    · exact List.mem_cons_of_mem _ (ih h)

theorem points_of_write (c : InfluxDBClient) (m : Message) (p : Point)
    (hp : p ∈ pointsOf (c.WriteData m).events) :
    p.tags = buildTags m ∧ p.fields = m.Data ∧ p.ts = m.Timestamp := by
  unfold InfluxDBClient.WriteData at hp
  cases hw : c.writeAPI with
  | none => simp [hw, pointsOf] at hp
  | some w =>
    simp only [hw] at hp
    by_cases h1 : m.State = "Pre"
    · simp [h1, pointsOf, logWriterDebug, NewPoint] at hp
      simp [hp]
    · by_cases h2 : m.State = "Post"
      · simp [h2, pointsOf, logWriterDebug, logWriterInfo, NewPoint] at hp
        simp [hp]
      · simp [h1, h2, pointsOf, logWriterDebug, logWriterInfo, NewPoint] at hp
        rcases hp with hp | hp <;> simp [hp]

theorem handlesReady_new (url token org bucket : String) :
    HandlesReady (NewInfluxDBClient url token org bucket) := by
  intro h
  simp [NewInfluxDBClient] at h

theorem handlesReady_next (c : InfluxDBClient) (op : Op) (h : HandlesReady c) :
    HandlesReady (Op.next c op) := by
  cases op with
  | Connect a =>
    unfold Op.next InfluxDBClient.Connect
    by_cases hc : c.client.isSome = true
    · simpa [hc] using h
    · by_cases hp : (!a.pingOk || a.pingErr.isSome) = true
      · simp [hc, hp, HandlesReady]
      · cases hq : a.queryErr <;> simp [hc, hp, hq, HandlesReady]
  | Disconnect =>
    unfold Op.next InfluxDBClient.Disconnect
    cases hc : c.client with
    | none => simpa using h
    | some sc => simp [HandlesReady]
  | WriteData data =>
    unfold Op.next InfluxDBClient.WriteData
    cases hw : c.writeAPI <;> simpa using h
  | ReadData query queryErr =>
    unfold Op.next InfluxDBClient.ReadData
    cases hq : c.queryAPI with
    | none => simpa using h
    | some q => cases queryErr <;> simpa using h

theorem handlesReady_run (ops : List Op) (c : InfluxDBClient) (h : HandlesReady c) :
    HandlesReady (run c ops) := by
  induction ops generalizing c with
  | nil => simpa [run] using h
  | cons op rest ih => exact ih _ (handlesReady_next c op h)

theorem handlesReady_of_reachable (c : InfluxDBClient) (hr : Reachable c) : HandlesReady c := by
  obtain ⟨url, token, org, bucket, ops, rfl⟩ := hr
  exact handlesReady_run ops _ (handlesReady_new url token org bucket)

theorem samplePoint_mem : samplePoint ∈ pointsOf (connectedClient.WriteData sampleMessage).events := by
  decide

/-! ## Tag derivation -/

/-- C1, as stated, fails: for a message whose ControllerIdentifier and
DeviceIdentifier are empty, the tags the submitted points carry under
controller_identifier and device_identifier are not "Unknown controller
identifier" and "Unknown device identifier". -/
theorem text_tags_counterexample :
    sampleMessage.ControllerIdentifier = "" ∧ sampleMessage.DeviceIdentifier = "" ∧
    (pointsOf (connectedClient.WriteData sampleMessage).events).map
        (fun p => p.tags.get? "controller_identifier")
      = [some "Unknown controller serial number"] ∧
    (pointsOf (connectedClient.WriteData sampleMessage).events).map
        (fun p => p.tags.get? "device_identifier")
      = [some "Unknown device serial number"] ∧
    ¬ (∀ p ∈ pointsOf (connectedClient.WriteData sampleMessage).events,
        TagRule p.tags "controller_identifier" sampleMessage.ControllerIdentifier
          "Unknown controller identifier") ∧
    ¬ (∀ p ∈ pointsOf (connectedClient.WriteData sampleMessage).events,
        TagRule p.tags "device_identifier" sampleMessage.DeviceIdentifier
          "Unknown device identifier") := by
  refine ⟨rfl, rfl, by decide, by decide, ?_, ?_⟩
  · intro h
    have := (h samplePoint samplePoint_mem).2 rfl
    exact absurd this (by decide)
  · intro h
    have := (h samplePoint samplePoint_mem).2 rfl
    exact absurd this (by decide)

/-- C1, amended: on every point WriteData submits, each of the eight text tags
is the message field verbatim when the field is non-empty, and when it is empty
the placeholder is "Unknown customer", "Unknown site", "Unknown gateway",
"Unknown controller", "Unknown device type", "Unknown controller serial number",
"Unknown device name", "Unknown device serial number" respectively. -/
theorem text_tags (c : InfluxDBClient) (m : Message) (p : Point)
    (hp : p ∈ pointsOf (c.WriteData m).events) :
    TagRule p.tags "customer" m.CustomerName "Unknown customer" ∧
    TagRule p.tags "site" m.SiteName "Unknown site" ∧
    TagRule p.tags "gateway" m.Gateway "Unknown gateway" ∧
    TagRule p.tags "controller" m.Controller "Unknown controller" ∧
    TagRule p.tags "device_type" m.DeviceType "Unknown device type" ∧
    TagRule p.tags "controller_identifier" m.ControllerIdentifier
      "Unknown controller serial number" ∧
    TagRule p.tags "device_name" m.DeviceName "Unknown device name" ∧
    TagRule p.tags "device_identifier" m.DeviceIdentifier "Unknown device serial number" := by
  rw [(points_of_write c m p hp).1]
  refine ⟨⟨?_, ?_⟩, ⟨?_, ?_⟩, ⟨?_, ?_⟩, ⟨?_, ?_⟩, ⟨?_, ?_⟩, ⟨?_, ?_⟩, ⟨?_, ?_⟩, ⟨?_, ?_⟩⟩ <;>
    intro h <;>
    simp [buildTags, GoMap.set, GoMap.get?, h, getCustomerTag, getSiteNameTag, getGatewayTag,
      getControllerTag, getDeviceTypeTag, getControllerIdentifierTag, getDeviceNameTag,
      getDeviceIdentifierTag]

/-- Witness of `text_tags`: the point of a "Post" write on a connected client. -/
theorem text_tags_witness :
    samplePoint ∈ pointsOf (connectedClient.WriteData sampleMessage).events ∧
    (TagRule samplePoint.tags "customer" sampleMessage.CustomerName "Unknown customer" ∧
    TagRule samplePoint.tags "site" sampleMessage.SiteName "Unknown site" ∧
    TagRule samplePoint.tags "gateway" sampleMessage.Gateway "Unknown gateway" ∧
    TagRule samplePoint.tags "controller" sampleMessage.Controller "Unknown controller" ∧
    TagRule samplePoint.tags "device_type" sampleMessage.DeviceType "Unknown device type" ∧
    TagRule samplePoint.tags "controller_identifier" sampleMessage.ControllerIdentifier
      "Unknown controller serial number" ∧
    TagRule samplePoint.tags "device_name" sampleMessage.DeviceName "Unknown device name" ∧
    TagRule samplePoint.tags "device_identifier" sampleMessage.DeviceIdentifier
      "Unknown device serial number") :=
  ⟨by decide, text_tags connectedClient sampleMessage samplePoint (by decide)⟩

/-- C2: the tag set of every point WriteData submits has exactly the ten keys
customerID, customer, siteID, site, gateway, controller, device_type,
controller_identifier, device_name, device_identifier, each once, and every
value is a non-empty string. -/
theorem tag_set_complete (c : InfluxDBClient) (m : Message) (p : Point)
    (hp : p ∈ pointsOf (c.WriteData m).events) :
    (∀ k, k ∈ p.tags.keys ↔ k ∈ tagKeys) ∧ p.tags.keys.Nodup ∧ p.tags.keys.length = 10 ∧
    (∀ k ∈ tagKeys, ∃ v, p.tags.get? k = some v ∧ v ≠ "") ∧
    (∀ k v, p.tags.get? k = some v → v ≠ "") := by
  rw [(points_of_write c m p hp).1]
  have hkeys : (buildTags m).keys = tagKeys := by
    simp [buildTags, GoMap.set, GoMap.keys, tagKeys]
  have h1 : getCustomerIDTag m.CustomerID ≠ "" := by
    unfold getCustomerIDTag; split
    · decide
    · exact UUID.String_ne_empty _
  have h2 : getSiteIDTag m.SiteID ≠ "" := by
    unfold getSiteIDTag; split
    · decide
    · exact UUID.String_ne_empty _
  have h3 : ∀ s d : String, d ≠ "" → (if s = "" then d else s) ≠ "" := by
    intro s d hd; split
    · exact hd
    · assumption
  have hall : ∀ k v, (buildTags m).get? k = some v → v ≠ "" := by
    intro k v hv
    have hmem := GoMap.mem_of_get? _ k v hv
    simp only [buildTags, GoMap.set, String.reduceEq, if_false, List.mem_cons, Prod.mk.injEq,
      List.mem_singleton, List.not_mem_nil, or_false] at hmem
    rcases hmem with h | h | h | h | h | h | h | h | h | h <;> rw [h.2] <;>
      first
      | exact h1
      | exact h2
      | exact h3 _ _ (by decide)
  refine ⟨?_, ?_, ?_, ?_, hall⟩
  · intro k; rw [hkeys]
  · rw [hkeys]; decide
  · rw [hkeys]; rfl
  · intro k hk
    have : ∃ v, (buildTags m).get? k = some v := by
      simp only [tagKeys, List.mem_cons, List.mem_singleton, List.not_mem_nil, or_false] at hk
      rcases hk with h | h | h | h | h | h | h | h | h | h <;> subst h <;>
        simp [buildTags, GoMap.set, GoMap.get?]
    obtain ⟨v, hv⟩ := this
    exact ⟨v, hv, hall k v hv⟩

/-- Witness of `tag_set_complete`: the point of a "Post" write of a message
with seven empty fields and a nil site identifier. -/
theorem tag_set_complete_witness :
    samplePoint ∈ pointsOf (connectedClient.WriteData sampleMessage).events ∧
    ((∀ k, k ∈ samplePoint.tags.keys ↔ k ∈ tagKeys) ∧ samplePoint.tags.keys.Nodup ∧
    samplePoint.tags.keys.length = 10 ∧
    (∀ k ∈ tagKeys, ∃ v, samplePoint.tags.get? k = some v ∧ v ≠ "") ∧
    (∀ k v, samplePoint.tags.get? k = some v → v ≠ "")) :=
  ⟨by decide, tag_set_complete connectedClient sampleMessage samplePoint (by decide)⟩

/-- C3: on every point WriteData submits, the customerID tag is "Unknown
customer ID" exactly when CustomerID is the nil identifier and is otherwise the
string form of CustomerID; the siteID tag is "Unknown site ID" exactly when
SiteID is the nil identifier and is otherwise the string form of SiteID. -/
theorem id_tags (c : InfluxDBClient) (m : Message) (p : Point)
    (hp : p ∈ pointsOf (c.WriteData m).events) :
    (p.tags.get? "customerID" = some "Unknown customer ID" ↔ m.CustomerID = UUID.Nil) ∧
    (m.CustomerID ≠ UUID.Nil → p.tags.get? "customerID" = some m.CustomerID.String) ∧
    (p.tags.get? "siteID" = some "Unknown site ID" ↔ m.SiteID = UUID.Nil) ∧
    (m.SiteID ≠ UUID.Nil → p.tags.get? "siteID" = some m.SiteID.String) := by
  rw [(points_of_write c m p hp).1]
  have hc : (buildTags m).get? "customerID" = some (getCustomerIDTag m.CustomerID) := by
    simp [buildTags, GoMap.set, GoMap.get?]
  have hs : (buildTags m).get? "siteID" = some (getSiteIDTag m.SiteID) := by
    simp [buildTags, GoMap.set, GoMap.get?]
  rw [hc, hs]
  refine ⟨⟨?_, ?_⟩, ?_, ⟨?_, ?_⟩, ?_⟩
  · intro h
    by_contra hn
    simp only [getCustomerIDTag, hn, if_false, Option.some.injEq] at h
    exact UUID.String_ne_customer _ h
  · intro h; simp [getCustomerIDTag, h]
  · intro h; simp [getCustomerIDTag, h]
  · intro h
    by_contra hn
    simp only [getSiteIDTag, hn, if_false, Option.some.injEq] at h
    exact UUID.String_ne_site _ h
  · intro h; simp [getSiteIDTag, h]
  · intro h; simp [getSiteIDTag, h]

/-- Witness of `id_tags`: a message with a non-nil customer identifier and the
nil site identifier. -/
theorem id_tags_witness :
    samplePoint ∈ pointsOf (connectedClient.WriteData sampleMessage).events ∧
    ((samplePoint.tags.get? "customerID" = some "Unknown customer ID" ↔
      sampleMessage.CustomerID = UUID.Nil) ∧
    (sampleMessage.CustomerID ≠ UUID.Nil →
      samplePoint.tags.get? "customerID" = some sampleMessage.CustomerID.String) ∧
    (samplePoint.tags.get? "siteID" = some "Unknown site ID" ↔ sampleMessage.SiteID = UUID.Nil) ∧
    (sampleMessage.SiteID ≠ UUID.Nil →
      samplePoint.tags.get? "siteID" = some sampleMessage.SiteID.String)) :=
  ⟨by decide, id_tags connectedClient sampleMessage samplePoint (by decide)⟩

/-! ## Routing by stage -/

theorem points_of_write_ready (c : InfluxDBClient) (m : Message) (hw : c.writeAPI.isSome = true) :
    (c.WriteData m).outcome = Outcome.returned none ∧
    pointsOf (c.WriteData m).events =
      if m.State = "Pre" then
        [{ measurement := "Original_MQTT", tags := buildTags m, fields := m.Data,
           ts := m.Timestamp }]
      else if m.State = "Post" then
        [{ measurement := "Processed_MQTT", tags := buildTags m, fields := m.Data,
           ts := m.Timestamp }]
      else
        [{ measurement := "Original_MQTT", tags := buildTags m, fields := m.Data,
           ts := m.Timestamp },
         { measurement := "Processed_MQTT", tags := buildTags m, fields := m.Data,
           ts := m.Timestamp }] := by
  unfold InfluxDBClient.WriteData
  cases h : c.writeAPI with
  | none => simp [h] at hw
  | some w =>
    by_cases h1 : m.State = "Pre"
    · simp [h1, pointsOf, logWriterDebug, NewPoint]
    · by_cases h2 : m.State = "Post"
      · simp [h2, pointsOf, logWriterDebug, logWriterInfo, NewPoint]
      · simp [h1, h2, pointsOf, logWriterDebug, logWriterInfo, NewPoint]

/-- C4, as stated, fails: a "Pre" write on a connected client submits one point
whose measurement name is "Original_MQTT", not "Original", and a "Post" write
one whose measurement name is "Processed_MQTT", not "Processed". -/
theorem write_stage_counterexample :
    connectedClient.Connected = true ∧ samplePre.State = "Pre" ∧ sampleMessage.State = "Post" ∧
    (pointsOf (connectedClient.WriteData samplePre).events).map (fun p => p.measurement)
      = ["Original_MQTT"] ∧
    (pointsOf (connectedClient.WriteData samplePre).events).map (fun p => p.measurement)
      ≠ ["Original"] ∧
    (pointsOf (connectedClient.WriteData sampleMessage).events).map (fun p => p.measurement)
      = ["Processed_MQTT"] ∧
    (pointsOf (connectedClient.WriteData sampleMessage).events).map (fun p => p.measurement)
      ≠ ["Processed"] := by
  decide

/-- C4, amended: on a connected client reached from the constructor, WriteData
with stage "Pre" submits exactly one point and its measurement name is
"Original_MQTT"; with stage "Post" it submits exactly one point and its
measurement name is "Processed_MQTT"; the point carries the derived tag set,
the Data map and the Timestamp of the message. -/
theorem write_stage (c : InfluxDBClient) (m : Message) (hr : Reachable c)
    (hc : c.Connected = true) :
    (m.State = "Pre" →
      pointsOf (c.WriteData m).events =
        [{ measurement := "Original_MQTT", tags := buildTags m, fields := m.Data,
           ts := m.Timestamp }]) ∧
    (m.State = "Post" →
      pointsOf (c.WriteData m).events =
        [{ measurement := "Processed_MQTT", tags := buildTags m, fields := m.Data,
           ts := m.Timestamp }]) := by
  have hw := (handlesReady_of_reachable c hr hc).2
  have h := (points_of_write_ready c m hw).2
  constructor
  · intro hs; rw [h]; simp [hs]
  · intro hs; rw [h]; simp [hs]

/-- Witness of `write_stage`: a client after one successful Connect. -/
theorem write_stage_witness :
    Reachable connectedClient ∧ connectedClient.Connected = true ∧
    ((samplePre.State = "Pre" →
      pointsOf (connectedClient.WriteData samplePre).events =
        [{ measurement := "Original_MQTT", tags := buildTags samplePre, fields := samplePre.Data,
           ts := samplePre.Timestamp }]) ∧
    (samplePre.State = "Post" →
      pointsOf (connectedClient.WriteData samplePre).events =
        [{ measurement := "Processed_MQTT", tags := buildTags samplePre, fields := samplePre.Data,
           ts := samplePre.Timestamp }])) :=
  ⟨⟨"http://localhost:8086", "token", "org", "bucket", [Op.Connect goodAnswers], rfl⟩, by decide,
    write_stage connectedClient samplePre
      ⟨"http://localhost:8086", "token", "org", "bucket", [Op.Connect goodAnswers], rfl⟩
      (by decide)⟩

/-- C5: on a connected client reached from the constructor, WriteData of a
message whose stage is neither "Pre" nor "Post" submits exactly two points: the
single point of a "Pre" write of the same message followed by the single point
of a "Post" write of it; the two have the same tags, fields and timestamp and
differ in their measurement name. -/
theorem write_unspecified (c : InfluxDBClient) (m : Message) (hr : Reachable c)
    (hc : c.Connected = true) (h1 : m.State ≠ "Pre") (h2 : m.State ≠ "Post") :
    ∃ p1 p2, pointsOf (c.WriteData m).events = [p1, p2] ∧
      pointsOf (c.WriteData { m with State := "Pre" }).events = [p1] ∧
      pointsOf (c.WriteData { m with State := "Post" }).events = [p2] ∧
      p1.tags = p2.tags ∧ p1.fields = p2.fields ∧ p1.ts = p2.ts ∧
      p1.measurement ≠ p2.measurement := by
  have hw := (handlesReady_of_reachable c hr hc).2
  refine ⟨{ measurement := "Original_MQTT", tags := buildTags m, fields := m.Data,
            ts := m.Timestamp },
          { measurement := "Processed_MQTT", tags := buildTags m, fields := m.Data,
            ts := m.Timestamp }, ?_, ?_, ?_, rfl, rfl, rfl, ?_⟩
  · rw [(points_of_write_ready c m hw).2]; simp [h1, h2]
  · rw [(points_of_write_ready c _ hw).2]; simp [buildTags]
  · rw [(points_of_write_ready c _ hw).2]; simp [buildTags]
  · show "Original_MQTT" ≠ "Processed_MQTT"
    decide

/-- Witness of `write_unspecified`: a message with the empty stage. -/
theorem write_unspecified_witness :
    Reachable connectedClient ∧ connectedClient.Connected = true ∧
    sampleUnspecified.State ≠ "Pre" ∧ sampleUnspecified.State ≠ "Post" ∧
    ∃ p1 p2, pointsOf (connectedClient.WriteData sampleUnspecified).events = [p1, p2] ∧
      pointsOf (connectedClient.WriteData { sampleUnspecified with State := "Pre" }).events
        = [p1] ∧
      pointsOf (connectedClient.WriteData { sampleUnspecified with State := "Post" }).events
        = [p2] ∧
      p1.tags = p2.tags ∧ p1.fields = p2.fields ∧ p1.ts = p2.ts ∧
      p1.measurement ≠ p2.measurement :=
  ⟨⟨"http://localhost:8086", "token", "org", "bucket", [Op.Connect goodAnswers], rfl⟩, by decide,
    by decide, by decide,
    write_unspecified connectedClient sampleUnspecified
      ⟨"http://localhost:8086", "token", "org", "bucket", [Op.Connect goodAnswers], rfl⟩
      (by decide) (by decide) (by decide)⟩

/-! ## Connection lifecycle -/

/-- C6, evaluated on the code: on a new client, a Connect whose ping fails, and
one whose validation query fails, return an error and leave Connected() false,
but the query handle and the write handle made during the attempt stay set. -/
theorem connect_failure_keeps_handles :
    freshClient.Connected = false ∧
    (freshClient.Connect badPing).outcome = Outcome.returned
      (some { format := "failed to ping InfluxDB server: %w",
              args := [some "connection refused"] }) ∧
    (freshClient.Connect badPing).client.Connected = false ∧
    (freshClient.Connect badPing).client.queryAPI.isSome = true ∧
    (freshClient.Connect badPing).client.writeAPI.isSome = true ∧
    (freshClient.Connect badQuery).outcome = Outcome.returned
      (some { format := "failed to query InfluxDB server: %w", args := [some "unauthorized"] }) ∧
    (freshClient.Connect badQuery).client.Connected = false ∧
    (freshClient.Connect badQuery).client.queryAPI.isSome = true ∧
    (freshClient.Connect badQuery).client.writeAPI.isSome = true := by
  decide

/-- C7, evaluated on the code: after a Connect that failed at the ping, and no
successful Connect, ReadData does not return the error "queryAPI is not
initialized": it executes the query text against the store and returns no
error. -/
theorem read_after_failed_connect :
    noSuccessfulConnect freshClient [Op.Connect badPing] = true ∧
    ((run freshClient [Op.Connect badPing]).ReadData "buckets()" none).outcome
      = Outcome.returned ([], none) ∧
    queriesOf ((run freshClient [Op.Connect badPing]).ReadData "buckets()" none).events
      = ["buckets()"] := by
  decide

/-- C8, evaluated on the code: on a new client, whose write handle is nil,
WriteData does not return an error: it panics at the first WritePoint, having
submitted no point.  On a client left by a failed Connect, with no connection
established, it submits the point and returns no error. -/
theorem write_without_connection :
    freshClient.writeAPI = none ∧
    (freshClient.WriteData sampleMessage).outcome = Outcome.panicked ∧
    pointsOf (freshClient.WriteData sampleMessage).events = [] ∧
    (run freshClient [Op.Connect badPing]).Connected = false ∧
    noSuccessfulConnect freshClient [Op.Connect badPing] = true ∧
    ((run freshClient [Op.Connect badPing]).WriteData sampleMessage).outcome
      = Outcome.returned none ∧
    pointsOf ((run freshClient [Op.Connect badPing]).WriteData sampleMessage).events
      = [samplePoint] := by
  decide

/-- C9: on a connected client, Connect returns no error, leaves the client
struct as it was (so Connected() is still true), creates no store client, logs
the warning "InfluxDB client already connected", and calls nothing but the
logger; on a client that is not connected, Disconnect returns, leaves the
client struct as it was, closes nothing, logs the warning "No connection to
InfluxDB", and calls nothing but the logger. -/
theorem lifecycle_noops (c d : InfluxDBClient) (a : ConnectAnswers)
    (hc : c.Connected = true) (hd : d.Connected = false) :
    ((c.Connect a).outcome = Outcome.returned none ∧ (c.Connect a).client = c ∧
      (c.Connect a).client.Connected = true ∧
      newClientsOf (c.Connect a).events = [] ∧
      warningsOf (c.Connect a).events = ["InfluxDB client already connected"] ∧
      (∀ e ∈ (c.Connect a).events, ∃ l msg fs, e = Event.log l msg fs)) ∧
    (d.Disconnect.outcome = Outcome.returned () ∧ d.Disconnect.client = d ∧
      closedOf d.Disconnect.events = [] ∧
      warningsOf d.Disconnect.events = ["No connection to InfluxDB"] ∧
      (∀ e ∈ d.Disconnect.events, ∃ l msg fs, e = Event.log l msg fs)) := by
  constructor
  · have hc' : c.client.isSome = true := hc
    unfold InfluxDBClient.Connect
    simp [hc', InfluxDBClient.Connected, newClientsOf, warningsOf]
  · have hn : d.client = none := by
      simpa [InfluxDBClient.Connected] using hd
    unfold InfluxDBClient.Disconnect
    simp [hn, closedOf, warningsOf]

/-- Witness of `lifecycle_noops`: a client after one successful Connect, and a
new client. -/
theorem lifecycle_noops_witness :
    connectedClient.Connected = true ∧ freshClient.Connected = false ∧
    ((connectedClient.Connect goodAnswers).outcome = Outcome.returned none ∧
      (connectedClient.Connect goodAnswers).client = connectedClient ∧
      (connectedClient.Connect goodAnswers).client.Connected = true ∧
      newClientsOf (connectedClient.Connect goodAnswers).events = [] ∧
      warningsOf (connectedClient.Connect goodAnswers).events
        = ["InfluxDB client already connected"] ∧
      (∀ e ∈ (connectedClient.Connect goodAnswers).events, ∃ l msg fs, e = Event.log l msg fs)) ∧
    (freshClient.Disconnect.outcome = Outcome.returned () ∧
      freshClient.Disconnect.client = freshClient ∧
      closedOf freshClient.Disconnect.events = [] ∧
      warningsOf freshClient.Disconnect.events = ["No connection to InfluxDB"] ∧
      (∀ e ∈ freshClient.Disconnect.events, ∃ l msg fs, e = Event.log l msg fs)) :=
  ⟨by decide, by decide,
    lifecycle_noops connectedClient freshClient goodAnswers (by decide) (by decide)⟩

/-- C10: in every client state a sequence of Connect, Disconnect, WriteData and
ReadData calls, with any answers of the store, produces from the constructor,
Connected() = true implies that the query handle and the write handle are both
set; WriteData then does not panic and returns no error, and ReadData executes
the query and does not return "queryAPI is not initialized". -/
theorem connected_handles (url token org bucket : String) (ops : List Op)
    (hc : (run (NewInfluxDBClient url token org bucket) ops).Connected = true) :
    (run (NewInfluxDBClient url token org bucket) ops).queryAPI.isSome = true ∧
    (run (NewInfluxDBClient url token org bucket) ops).writeAPI.isSome = true ∧
    (∀ m, ((run (NewInfluxDBClient url token org bucket) ops).WriteData m).outcome
      = Outcome.returned none) ∧
    (∀ q e, queriesOf ((run (NewInfluxDBClient url token org bucket) ops).ReadData q e).events
        = [q] ∧
      ((run (NewInfluxDBClient url token org bucket) ops).ReadData q e).outcome
        ≠ Outcome.returned ([], some { format := "queryAPI is not initialized", args := [] })) := by
  have h := handlesReady_run ops _ (handlesReady_new url token org bucket) hc
  generalize run (NewInfluxDBClient url token org bucket) ops = c at h
  refine ⟨h.1, h.2, fun m => (points_of_write_ready c m h.2).1, ?_⟩
  intro q e
  unfold InfluxDBClient.ReadData
  cases hq : c.queryAPI with
  | none => simp [hq] at h
  | some qa => cases e <;> simp [queriesOf]

/-- Witness of `connected_handles`: a failed Connect, a successful one, a
Disconnect, and a successful Connect again. -/
theorem connected_handles_witness :
    (run (NewInfluxDBClient "http://localhost:8086" "token" "org" "bucket")
      [Op.Connect badPing, Op.Connect goodAnswers, Op.WriteData sampleMessage, Op.Disconnect,
       Op.ReadData "buckets()" none, Op.Connect goodAnswers]).Connected = true ∧
    ((run (NewInfluxDBClient "http://localhost:8086" "token" "org" "bucket")
      [Op.Connect badPing, Op.Connect goodAnswers, Op.WriteData sampleMessage, Op.Disconnect,
       Op.ReadData "buckets()" none, Op.Connect goodAnswers]).queryAPI.isSome = true ∧
    (run (NewInfluxDBClient "http://localhost:8086" "token" "org" "bucket")
      [Op.Connect badPing, Op.Connect goodAnswers, Op.WriteData sampleMessage, Op.Disconnect,
       Op.ReadData "buckets()" none, Op.Connect goodAnswers]).writeAPI.isSome = true ∧
    (∀ m, ((run (NewInfluxDBClient "http://localhost:8086" "token" "org" "bucket")
      [Op.Connect badPing, Op.Connect goodAnswers, Op.WriteData sampleMessage, Op.Disconnect,
       Op.ReadData "buckets()" none, Op.Connect goodAnswers]).WriteData m).outcome
      = Outcome.returned none) ∧
    (∀ q e, queriesOf ((run (NewInfluxDBClient "http://localhost:8086" "token" "org" "bucket")
      [Op.Connect badPing, Op.Connect goodAnswers, Op.WriteData sampleMessage, Op.Disconnect,
       Op.ReadData "buckets()" none, Op.Connect goodAnswers]).ReadData q e).events = [q] ∧
      ((run (NewInfluxDBClient "http://localhost:8086" "token" "org" "bucket")
      [Op.Connect badPing, Op.Connect goodAnswers, Op.WriteData sampleMessage, Op.Disconnect,
       Op.ReadData "buckets()" none, Op.Connect goodAnswers]).ReadData q e).outcome
        ≠ Outcome.returned
          ([], some { format := "queryAPI is not initialized", args := [] }))) :=
  ⟨by decide, connected_handles "http://localhost:8086" "token" "org" "bucket"
    [Op.Connect badPing, Op.Connect goodAnswers, Op.WriteData sampleMessage, Op.Disconnect,
     Op.ReadData "buckets()" none, Op.Connect goodAnswers] (by decide)⟩

end Influxdbclient
